import Mathlib

/-!
Shallow embedding of the article-checker Cloudflare worker: the sliding-window
rate limiter (`checkRateLimit`), the request validator (`validateRequest`), the
Brave-search fact-check engine (`BraveSearchService`), the PR-URL extractor
(`GitHubService.extractPRDetails`) and the post-validation orchestration of the
worker's `fetch` handler. Remote calls (the KV store, GitHub, the analysis
backend, the search backend) are modelled as explicit oracle parameters giving
the outcome of each call; JavaScript exceptions become `Except` values and
truthiness tests on strings become emptiness tests.
-/

namespace ArticleChecker

/-- `RATE_LIMIT.MAX_REQUESTS` in the worker source. -/
def MAX_REQUESTS : Nat := 100

/-- `RATE_LIMIT.WINDOW_SIZE` in the worker source, in seconds. -/
def WINDOW_SIZE : Int := 3600

/-- A JSON value as far as the rate limiter inspects it: `Array.isArray`
distinguishes an array of (numeric) timestamps from every other JSON value. -/
inductive KVJson
  | arr (l : List Int)
  | nonArr
deriving DecidableEq

/-- Outcome of `kv.get(key, { type: "json" })`: the call may throw, or return
`null` (modelled `none`) or a JSON value. -/
inductive KVGet
  | throws
  | value (v : Option KVJson)
deriving DecidableEq

/-- Shallow embedding of `checkRateLimit(kv, ip)` from the worker.  `now` is
`Math.floor(Date.now() / 1000)`, `getRes` the outcome of the `kv.get` call,
`putThrows` the outcome of the `kv.put` call.  The stored value is used only
when it is an array (`Array.isArray`); a `kv.get` exception is caught and
replaced by `[]`; `kv.put` runs inside its own `try { } catch { }` whose error
is ignored, so `putThrows` cannot influence the result.  Returns `true` when
the request must be BLOCKED (over the limit). -/
def checkRateLimit (now : Int) (getRes : KVGet) (putThrows : Bool) : Bool :=
  let windowStart := now - WINDOW_SIZE
  let requests : List Int :=
    match getRes with
    | .throws => []
    | .value (some (.arr l)) => l
    | .value _ => []
  let validRequests := requests.filter (fun time => decide (time > windowStart)) ++ [now]
  validRequests.length > MAX_REQUESTS

/-- The four entries of `requiredEnvVars` in `validateRequest`. -/
def requiredEnvVars : List String :=
  ["GITHUB_TOKEN", "ANTHROPIC_API_KEY", "BRAVE_SEARCH_API_KEY", "GITHUB_WEBHOOK_SECRET"]

/-- The worker's `Env` bindings (the KV namespace itself is passed separately
as an oracle). -/
structure Env where
  GITHUB_TOKEN : String
  ANTHROPIC_API_KEY : String
  BRAVE_SEARCH_API_KEY : String
  GITHUB_WEBHOOK_SECRET : String
deriving DecidableEq

/-- Dynamic lookup `env[key]` for the four required keys. -/
def envGet (env : Env) : String → String
  | "GITHUB_TOKEN" => env.GITHUB_TOKEN
  | "ANTHROPIC_API_KEY" => env.ANTHROPIC_API_KEY
  | "BRAVE_SEARCH_API_KEY" => env.BRAVE_SEARCH_API_KEY
  | "GITHUB_WEBHOOK_SECRET" => env.GITHUB_WEBHOOK_SECRET
  | _ => ""

/-- `requiredEnvVars.filter((key) => !env[key])`: a string is falsy in
JavaScript exactly when it is empty. -/
def missingEnvVars (env : Env) : List String :=
  requiredEnvVars.filter (fun key => (envGet env key).isEmpty)

/-- The parts of the inbound `Request` that `validateRequest` reads.  A header
is `none` when absent (`headers.get` returns `null`). -/
structure Req where
  cfConnectingIP : Option String
  hubSignature256 : Option String
  rawBody : String
deriving DecidableEq

/-- `request.headers.get("cf-connecting-ip") || "unknown"`: `null` and the
empty string are falsy. -/
def clientIPOf (req : Req) : String :=
  match req.cfConnectingIP with
  | some s => if s = "" then "unknown" else s
  | none => "unknown"

/-- The signature header as the falsiness test `if (!signature)` sees it. -/
def signatureOf (req : Req) : String := req.hubSignature256.getD ""

/-- Rate-limit KV key, `` `ratelimit:${ip}` ``. -/
def ratelimitKey (ip : String) : String := "ratelimit:" ++ ip

/-- Response body: either a plain text body or `JSON.stringify({ error: s })`. -/
inductive Body
  | plain (s : String)
  | jsonError (s : String)
deriving DecidableEq

/-- An HTTP response as the worker builds it. -/
structure Resp where
  status : Nat
  headers : List (String × String)
  body : Body
deriving DecidableEq

/-- A record of which external checks `validateRequest` actually invoked, with
the exact arguments passed. -/
inductive Gate
  | rateLimiter (ip : String)
  | verifier (secret rawBody signature : String)
deriving DecidableEq

/-- Shallow embedding of `validateRequest(request, env)`.  `kvGet`/`kvPutThrows`
give the KV store's behaviour for the rate limiter, `verify` the outcome of
`verify(secret, rawBody, signature)`.  Returns the early response (`none` means
"proceed") together with the list of gates that ran, in order. -/
def validateRequest (env : Env) (req : Req) (now : Int)
    (kvGet : String → KVGet) (kvPutThrows : Bool)
    (verify : String → String → String → Bool) : Option Resp × List Gate :=
  if (missingEnvVars env).length > 0 then
    (some ⟨500, [], .plain "Missing required environment variables"⟩, [])
  else
    let clientIP := clientIPOf req
    let isOverLimit := checkRateLimit now (kvGet (ratelimitKey clientIP)) kvPutThrows
    if isOverLimit then
      (some ⟨429, [("Retry-After", toString WINDOW_SIZE)], .plain "Rate limit exceeded"⟩,
        [.rateLimiter clientIP])
    else
      let signature := signatureOf req
      if signature = "" then
        (some ⟨401, [], .plain "No signature"⟩, [.rateLimiter clientIP])
      else if verify env.GITHUB_WEBHOOK_SECRET req.rawBody signature then
        (none, [.rateLimiter clientIP, .verifier env.GITHUB_WEBHOOK_SECRET req.rawBody signature])
      else
        (some ⟨401, [], .plain "Invalid signature"⟩,
          [.rateLimiter clientIP, .verifier env.GITHUB_WEBHOOK_SECRET req.rawBody signature])

/-- A fully configured environment used for closed instances. -/
def env0 : Env :=
  { GITHUB_TOKEN := "tok"
    ANTHROPIC_API_KEY := "key"
    BRAVE_SEARCH_API_KEY := "brave"
    GITHUB_WEBHOOK_SECRET := "secret" }

/-- Splits a character list at every character satisfying `p`, keeping empty
pieces, exactly as JavaScript `String.prototype.split` does with a
one-character separator. -/
def splitBy (p : Char → Bool) : List Char → List (List Char)
  | [] => [[]]
  | c :: cs =>
    let rest := splitBy p cs
    if p c then [] :: rest
    else
      match rest with
      | [] => [[c]]
      | r :: rs => (c :: r) :: rs

/-- JavaScript `s.split(sep)` for a one-character separator string. -/
def jsSplit (sep : Char) (s : String) : List String :=
  (splitBy (fun c => c = sep) s.toList).map String.mk

/-- Whitespace as JavaScript `String.prototype.trim` strips it (the ASCII part
of the Unicode white-space set plus NBSP and the BOM; the rarer Unicode space
code points are not modelled). -/
def isTrimmable (c : Char) : Bool :=
  c = ' ' || c = '\t' || c = '\n' || c = '\r' || c.toNat = 11 || c.toNat = 12 ||
    c.toNat = 0xa0 || c.toNat = 0xfeff

/-- JavaScript `s.trim()`. -/
def jsTrim (s : String) : String :=
  String.mk ((s.toList.dropWhile isTrimmable).reverse.dropWhile isTrimmable).reverse

/-- The sentence filter in `BraveSearchService.factCheck`:
`(s) => s.length >= 20 && s.split(" ").length >= 5`. -/
def isSubstantial (s : String) : Bool :=
  decide (s.length ≥ 20) && decide ((jsSplit ' ' s).length ≥ 5)

/-- Claim extraction in `BraveSearchService.factCheck`:
`content.split(".").map((s) => s.trim()).filter(...).slice(0, 3)`. -/
def extractClaims (content : String) : List String :=
  (((jsSplit '.' content).map jsTrim).filter isSubstantial).take 3

/-- Modelled from the claim's words, for comparison with `isSubstantial`: the
whitespace-delimited tokens of a string are its maximal runs of non-whitespace
characters. -/
def whitespaceTokens (s : String) : List String :=
  ((splitBy Char.isWhitespace s.toList).filter (fun t => !t.isEmpty)).map String.mk

/-- Modelled from the claim's words: keep a trimmed piece iff it is at least
20 characters long and contains at least 5 whitespace-delimited tokens. -/
def claimSubstantial (s : String) : Bool :=
  decide (s.length ≥ 20) && decide ((whitespaceTokens s).length ≥ 5)

/-- Modelled from the claim's words: the extraction rule exactly as the claim
states it, differing from `extractClaims` only in the sentence filter. -/
def claimExtract (content : String) : List String :=
  (((jsSplit '.' content).map jsTrim).filter claimSubstantial).take 3

/-- Removes the literal `pat` from the front of `cs` when `pat` is a prefix of
`cs`. -/
def dropLit : List Char → List Char → Option (List Char)
  | [], cs => some cs
  | _ :: _, [] => none
  | p :: ps, c :: cs => if c = p then dropLit ps cs else none

/-- Fuel-indexed replacement of every occurrence of a non-empty literal
pattern, scanning left to right, as `String.prototype.replace` with a global
literal regex does; the fuel is the string length, enough because every step
consumes at least one character. -/
def replaceAllAux (pat repl : List Char) : Nat → List Char → List Char
  | 0, cs => cs
  | _ + 1, [] => []
  | fuel + 1, c :: cs =>
    match dropLit pat (c :: cs) with
    | some rest => repl ++ replaceAllAux pat repl fuel rest
    | none => c :: replaceAllAux pat repl fuel cs

/-- JavaScript `s.replace(/pat/g, repl)` for a literal pattern. -/
def jsReplaceAll (pat repl s : String) : String :=
  String.mk (replaceAllAux pat.toList repl.toList s.toList.length s.toList)

/-- The apostrophe character, the replacement text for `&#x27;`. -/
def apostrophe : String := String.singleton (Char.ofNat 39)

/-- `BraveSearchService.removeStrong`. -/
def removeStrong (text : String) : String :=
  jsReplaceAll "&#x27;" apostrophe (jsReplaceAll "</strong>" "" (jsReplaceAll "<strong>" "" text))

/-- One synthesized search result as `processSearchResults` accumulates it. -/
structure BraveSearchResult where
  title : String
  url : String
  description : String
deriving DecidableEq

/-- An element of `response.web.results`. -/
structure BraveWebItem where
  title : String
  url : String
  description : String
deriving DecidableEq

/-- An element of `response.news.results` (`hostname` is `meta_url.hostname`). -/
structure BraveNewsItem where
  title : String
  url : String
  description : String
  age : String
  hostname : String
deriving DecidableEq

/-- An element of `response.faq.results`. -/
structure BraveFaqItem where
  title : String
  url : String
  question : String
  answer : String
deriving DecidableEq

/-- The `type` tag of an element of `response.mixed.main`. -/
inductive MixedType
  | web
  | news
  | faq
deriving DecidableEq

/-- The parts of the Brave search API response body that
`processSearchResults` reads; each section is optional (`?.` plus `|| []`). -/
structure BraveAPIResponse where
  web : Option (List BraveWebItem)
  news : Option (List BraveNewsItem)
  faq : Option (List BraveFaqItem)
  mixed : Option (List MixedType)
deriving DecidableEq

/-- The result-synthesis loop of `BraveSearchService.processSearchResults`:
walk `response.mixed.main`, consuming the per-category result lists through
their index counters; `break` at 5 accumulated results becomes an early
return; a news result is consumed but skipped when its description is shorter
than 5 characters. -/
def processLoop :
    List MixedType → List BraveWebItem → List BraveNewsItem → List BraveFaqItem →
      List BraveSearchResult → List BraveSearchResult
  | [], _, _, _, results => results
  | item :: rest, webResults, newsResults, faqResults, results =>
    if results.length ≥ 5 then results
    else
      match item with
      | .web =>
        match webResults with
        | [] => processLoop rest [] newsResults faqResults results
        | w :: ws =>
          processLoop rest ws newsResults faqResults
            (results ++ [⟨w.title, w.url, removeStrong w.description⟩])
      | .news =>
        match newsResults with
        | [] => processLoop rest webResults [] faqResults results
        | n :: ns =>
          if n.description.length ≥ 5 then
            processLoop rest webResults ns faqResults
              (results ++ [⟨n.title ++ " (" ++ n.age ++ " - " ++ n.hostname ++ ")", n.url,
                removeStrong n.description⟩])
          else processLoop rest webResults ns faqResults results
      | .faq =>
        match faqResults with
        | [] => processLoop rest webResults newsResults [] results
        | f :: fs =>
          processLoop rest webResults newsResults fs
            (results ++ [⟨f.title, f.url, "Q: " ++ f.question ++ "\nA: " ++ f.answer⟩])

/-- `BraveSearchService.processSearchResults` applied to the already-parsed
response of the remote `searchBrave` call. -/
def processResults (response : BraveAPIResponse) : List BraveSearchResult :=
  processLoop (response.mixed.getD []) (response.web.getD []) (response.news.getD [])
    (response.faq.getD []) []

/-- A claim's supporting reference, `{title, url}`. -/
structure Reference where
  title : String
  url : String
deriving DecidableEq

/-- A fact-check result, `{claim, references}`. -/
structure SearchResult where
  claim : String
  references : List Reference
deriving DecidableEq

/-- `Promise.all` over already-determined promise outcomes: it rejects iff
some element rejects, otherwise it resolves with the values in order. -/
def promiseAll {ε α : Type} : List (Except ε α) → Except ε (List α)
  | [] => .ok []
  | x :: xs =>
    match x with
    | .error e => .error e
    | .ok v =>
      match promiseAll xs with
      | .error e => .error e
      | .ok vs => .ok (v :: vs)

/-- Discriminator for rejected promises. -/
def isErr {ε α : Type} : Except ε α → Bool
  | .error _ => true
  | .ok _ => false

/-- `BraveSearchService.processSearchResults(query)` with the remote
`searchBrave` call supplied as an oracle mapping the query to its outcome
(a thrown `Brave search failed: ...` error or the parsed response). -/
def processSearchResults (search : String → Except String BraveAPIResponse)
    (query : String) : Except String (List BraveSearchResult) :=
  (search query).map processResults

/-- The per-claim resolution inside `factCheck`: run the search, then pair the
claim with the `{title, url}` projections of its search results. -/
def factCheckOne (search : String → Except String BraveAPIResponse)
    (claim : String) : Except String SearchResult :=
  (processSearchResults search claim).map (fun searchResults =>
    { claim := claim
      references := searchResults.map (fun result => ⟨result.title, result.url⟩) })

/-- `BraveSearchService.factCheck(content)`: extract claims, resolve them all
through `Promise.all`, then drop every result with an empty reference list. -/
def factCheck (search : String → Except String BraveAPIResponse) (content : String) :
    Except String (List SearchResult) :=
  match promiseAll ((extractClaims content).map (factCheckOne search)) with
  | .error e => .error e
  | .ok results => .ok (results.filter (fun result => decide (result.references.length > 0)))

/-- The `{owner, repo, number}` record `GitHubService.extractPRDetails`
returns. -/
structure PRDetails where
  owner : String
  repo : String
  number : Nat
deriving DecidableEq

/-- `parseInt` on a non-empty run of decimal digits. -/
def digitsToNat (ds : List Char) : Nat :=
  ds.foldl (fun acc c => acc * 10 + (c.toNat - 48)) 0

/-- Attempt to match the regular expression
`repos\/([^\/]+)\/([^\/]+)\/pulls\/(\d+)` at the start of `cs`.  Because each
`[^\/]+` is immediately followed by a literal slash, the greedy run up to the
next slash is the only possible capture, so no backtracking is needed; `\d+`
greedily captures the maximal digit run. -/
def matchPRAt (cs : List Char) : Option (String × String × Nat) :=
  match dropLit "repos/".toList cs with
  | none => none
  | some rest1 =>
    let owner := rest1.takeWhile (fun c => c != '/')
    let rest2 := rest1.dropWhile (fun c => c != '/')
    if owner.isEmpty then none
    else
      match rest2 with
      | '/' :: rest3 =>
        let repo := rest3.takeWhile (fun c => c != '/')
        let rest4 := rest3.dropWhile (fun c => c != '/')
        if repo.isEmpty then none
        else
          match dropLit "/pulls/".toList rest4 with
          | none => none
          | some rest5 =>
            let digits := rest5.takeWhile Char.isDigit
            if digits.isEmpty then none
            else some (String.mk owner, String.mk repo, digitsToNat digits)
      | _ => none

/-- Unanchored regex search: try a match at every start position. -/
def scanPR : List Char → Option (String × String × Nat)
  | [] => none
  | c :: cs =>
    match matchPRAt (c :: cs) with
    | some r => some r
    | none => scanPR cs

/-- `GitHubService.extractPRDetails(prUrl)`: search the pattern anywhere in
the URL; no match throws `Invalid PR URL format`. -/
def extractPRDetails (prUrl : String) : Except String PRDetails :=
  match scanPR prUrl.toList with
  | none => Except.error "Invalid PR URL format"
  | some (owner, repo, number) => Except.ok ⟨owner, repo, number⟩

/-- Outcomes of the remote calls one post-validation invocation makes.
`ackOk` is the fate of the fire-and-forget acknowledgment comment scheduled
through `ctx.waitUntil`; `getPRContent` the outcome of the 30-second
`Promise.race` around the content fetch; `postFinal` the outcome of posting
the final report comment; `postErrorOk` the outcome of posting the error
comment inside the catch block; `procMs` the computed processing duration. -/
structure Oracles where
  ackOk : Bool
  getPRContent : Except String String
  analyzeArticle : String → Except String String
  search : String → Except String BraveAPIResponse
  postFinal : Except String Unit
  postErrorOk : Bool
  procMs : Int

/-- Result of one invocation of the worker body: the HTTP response plus the
bodies of the GitHub comments that were successfully posted, in order. -/
structure HandlerResult where
  resp : Resp
  comments : List String
deriving DecidableEq

/-- The acknowledgment comment body. -/
def ackBody : String := "⏳ Processing article check request..."

/-- The comments posted by the background acknowledgment task. -/
def ackComments (o : Oracles) : List String := if o.ackOk then [ackBody] else []

/-- Text of the error comment before the interpolated message. -/
def errCommentPre : String := "❌ Error checking article:\n```\n"

/-- Text of the error comment after the interpolated message. -/
def errCommentSuf : String :=
  "\n```\nPlease try again later or contact support if the issue persists."

/-- The error comment posted from the catch block, containing the message. -/
def errorCommentBody (errorMessage : String) : String :=
  errCommentPre ++ (errorMessage ++ errCommentSuf)

/-- The placeholder substituted for a falsy analysis string. -/
def placeholderAnalysis : String := "*Error: Could not generate analysis*"

/-- `${analysis || "*Error: Could not generate analysis*"}`: the empty string
is the only falsy string. -/
def analysisSection (analysis : String) : String :=
  if analysis = "" then placeholderAnalysis else analysis

/-- The rendering of one fact-check result inside the report. -/
def renderFactCheckResult (result : SearchResult) : String :=
  "\n**Claim:** " ++ result.claim ++ "\n**References:**\n" ++
    String.intercalate "\n"
      (result.references.map (fun ref => "- [" ++ ref.title ++ "](" ++ ref.url ++ ")")) ++ "\n"

/-- The fact-checking section of the report. -/
def fcSection (factChecking : List SearchResult) : String :=
  if factChecking.length > 0 then
    String.intercalate "\n" (factChecking.map renderFactCheckResult)
  else "*No claims to fact check*"

/-- The composed report comment (the template literal in the worker). -/
def composeComment (analysis : String) (factChecking : List SearchResult)
    (procMs : Int) : String :=
  "## Article Check Results\n\n### AI Analysis\n" ++
    (analysisSection analysis ++
      ("\n\n### Fact Checking Results\n" ++
        (fcSection factChecking ++
          ("\n\n---\n*This check was performed automatically by the Article Checker bot.*\n*Processing time: " ++
            (toString procMs ++ "ms*")))))

/-- The `catch` block of the worker's inner `try`: post the error comment,
then answer 500 with `{error: message}`; when that comment post itself
rejects, the exception escapes to the outer `catch`, which answers 500 with
`{error: "Internal server error"}` and the comment is not posted. -/
def errorPath (o : Oracles) (posted : List String) (errorMessage : String) : HandlerResult :=
  if o.postErrorOk then
    ⟨⟨500, [("Content-Type", "application/json")], .jsonError errorMessage⟩,
      posted ++ [errorCommentBody errorMessage]⟩
  else
    ⟨⟨500, [("Content-Type", "application/json")], .jsonError "Internal server error"⟩, posted⟩

/-- The inner `try` of the worker's trigger branch, entered after
`extractPRDetails` succeeded: schedule the acknowledgment in the background,
fetch the PR content under the timeout race, analyze, fact-check, compose and
post the report; any rejection is caught and routed to `errorPath` with the
error's message. -/
def runArticleCheck (o : Oracles) : HandlerResult :=
  let posted := ackComments o
  match o.getPRContent with
  | .error e => errorPath o posted e
  | .ok content =>
    match o.analyzeArticle content with
    | .error e => errorPath o posted e
    | .ok analysis =>
      match factCheck o.search content with
      | .error e => errorPath o posted e
      | .ok factChecking =>
        match o.postFinal with
        | .error e => errorPath o posted e
        | .ok _ =>
          ⟨⟨200, [("Content-Type", "application/json")], .plain "Article check completed"⟩,
            posted ++ [composeComment analysis factChecking o.procMs]⟩

/-- The worker's trigger branch for a validated `issue_comment created` event
on a PR whose comment contains `/articlecheck`: the falsy-URL guard returning
400, then `extractPRDetails` — called outside the inner `try`, so its
exception reaches the outer `catch` (500, `{error: "Internal server error"}`,
no comment posted) — then the article check. -/
def handleTrigger (prUrl : String) (o : Oracles) : HandlerResult :=
  if prUrl = "" then ⟨⟨400, [], .plain "Invalid PR URL"⟩, []⟩
  else
    match extractPRDetails prUrl with
    | .error _ =>
      ⟨⟨500, [("Content-Type", "application/json")], .jsonError "Internal server error"⟩, []⟩
    | .ok _ => runArticleCheck o

deriving instance DecidableEq for Except

/-- A search response with a single web result, for closed instances. -/
def respW : BraveAPIResponse :=
  { web := some [⟨"Result title", "https://example.com/a", "a plain description"⟩]
    news := none
    faq := none
    mixed := some [MixedType.web] }

/-- A search oracle answering every query with `respW`. -/
def searchW : String → Except String BraveAPIResponse := fun _ => Except.ok respW

/-- A search oracle whose every query rejects. -/
def searchErrW : String → Except String BraveAPIResponse :=
  fun _ => Except.error "Brave search failed: Internal Server Error"

/-- A text with exactly one substantial sentence, for closed instances. -/
def contentW : String :=
  "This is a longer and more substantial claim that should be included."

/-- The single claim extracted from `contentW`. -/
def claimW : String :=
  "This is a longer and more substantial claim that should be included"

/-- The fact-check result produced for `contentW` under `searchW`. -/
def resultW : SearchResult :=
  { claim := claimW, references := [⟨"Result title", "https://example.com/a"⟩] }

/-- Oracles for a run whose content fetch rejects with "Timeout" and whose
error-comment post itself fails. -/
def oC2 : Oracles :=
  { ackOk := false
    getPRContent := Except.error "Timeout"
    analyzeArticle := fun _ => Except.ok ""
    search := fun _ => Except.ok ⟨none, none, none, none⟩
    postFinal := Except.ok ()
    postErrorOk := false
    procMs := 0 }

/-- Oracles for a run whose content fetch rejects with "Timeout" and whose
error-comment post succeeds. -/
def oC2ok : Oracles :=
  { oC2 with ackOk := true, postErrorOk := true }

/-- Oracles for a run whose analysis backend call rejects. -/
def oC3 : Oracles :=
  { ackOk := true
    getPRContent := Except.ok "article content"
    analyzeArticle := fun _ => Except.error "Claude API error: Bad Request"
    search := fun _ => Except.ok ⟨none, none, none, none⟩
    postFinal := Except.ok ()
    postErrorOk := true
    procMs := 0 }

/-- Oracles for a run that never gets past `extractPRDetails`. -/
def oC10 : Oracles :=
  { ackOk := true
    getPRContent := Except.ok "article content"
    analyzeArticle := fun _ => Except.ok "analysis"
    search := fun _ => Except.ok ⟨none, none, none, none⟩
    postFinal := Except.ok ()
    postErrorOk := true
    procMs := 0 }

/-- C1: the rate limiter denies a request exactly when the number of stored
timestamps strictly newer than `now - WINDOW_SIZE`, plus one for the current
request, exceeds `MAX_REQUESTS = 100`; hence 99 in-window prior timestamps (the
100th request) are allowed, 100 prior timestamps (the 101st request) are
denied, and 101 prior timestamps that are 100 seconds old are denied; a denial
makes `validateRequest` answer status 429 with a `Retry-After: 3600` header. -/
theorem claim1_rate_limit_threshold :
    ∀ (now : Int) (stored : List Int) (putThrows : Bool) (req : Req)
      (kvGet : String → KVGet) (verify : String → String → String → Bool),
      (checkRateLimit now (KVGet.value (some (KVJson.arr stored))) putThrows = true ↔
        (stored.filter (fun t => decide (t > now - WINDOW_SIZE))).length + 1 > MAX_REQUESTS)
      ∧ checkRateLimit now (KVGet.value (some (KVJson.arr (List.replicate 99 now)))) putThrows
          = false
      ∧ checkRateLimit now (KVGet.value (some (KVJson.arr (List.replicate 100 now)))) putThrows
          = true
      ∧ checkRateLimit now (KVGet.value (some (KVJson.arr (List.replicate 101 (now - 100)))))
          putThrows = true
      ∧ (checkRateLimit now (kvGet (ratelimitKey (clientIPOf req))) putThrows = true →
          (validateRequest env0 req now kvGet putThrows verify).1 =
            some ⟨429, [("Retry-After", "3600")], Body.plain "Rate limit exceeded"⟩) := by
  intro now stored putThrows req kvGet verify
  have hwin : ∀ n : Nat, (List.replicate n now).filter
      (fun t => decide (t > now - WINDOW_SIZE)) = List.replicate n now := by
    intro n
    refine List.filter_eq_self.mpr ?_
    intro a ha
    have := List.eq_of_mem_replicate ha
    subst this
    simp [WINDOW_SIZE]
  have hwin' : ∀ n : Nat, (List.replicate n (now - 100)).filter
      (fun t => decide (t > now - WINDOW_SIZE)) = List.replicate n (now - 100) := by
    intro n
    refine List.filter_eq_self.mpr ?_
    intro a ha
    have := List.eq_of_mem_replicate ha
    subst this
    simp [WINDOW_SIZE]
  refine ⟨?_, ?_, ?_, ?_, ?_⟩
  · simp only [checkRateLimit]
    simp only [decide_eq_true_eq, List.length_append, List.length_cons, List.length_nil]
  · simp only [checkRateLimit]
    rw [hwin 99]
    simp [MAX_REQUESTS]
  · simp only [checkRateLimit]
    rw [hwin 100]
    simp [MAX_REQUESTS]
  · simp only [checkRateLimit]
    rw [hwin' 101]
    simp [MAX_REQUESTS]
  · intro hblock
    have hts : toString WINDOW_SIZE = "3600" := rfl
    have hmiss : (missingEnvVars env0).length = 0 := rfl
    simp [validateRequest, hmiss, hblock, hts]

/-- C1 witness: 101 stored timestamps that are all 100 seconds old produce a
429 response carrying `Retry-After: 3600`. -/
theorem claim1_witness :
    (validateRequest env0 ⟨some "1.2.3.4", some "sha256=valid", "body"⟩ 1000000
        (fun _ => KVGet.value (some (KVJson.arr (List.replicate 101 (1000000 - 100))))) false
        (fun _ _ _ => true)).1 =
      some ⟨429, [("Retry-After", "3600")], Body.plain "Rate limit exceeded"⟩ := by
  exact (claim1_rate_limit_threshold 1000000 [] false
      ⟨some "1.2.3.4", some "sha256=valid", "body"⟩
      (fun _ => KVGet.value (some (KVJson.arr (List.replicate 101 (1000000 - 100)))))
      (fun _ _ _ => true)).2.2.2.2 (by decide)

/-- C4: `validateRequest` runs its three gates in order — configuration
completeness, rate limiting, signature verification — returning at the first
failure: a missing required secret gives a 500 before the rate limiter or the
verifier is invoked (the gate trace is empty); a rate-limit denial gives a 429
with a `Retry-After` header before the verifier is invoked; an absent (falsy)
signature header gives a 401 without invoking the verifier; a signature that
the verifier rejects against the shared secret and the raw body gives a 401;
and when all three gates pass the validator returns `none` (proceed). -/
theorem claim4_validator_gate_order :
    ∀ (env : Env) (req : Req) (now : Int) (kvGet : String → KVGet) (putThrows : Bool)
      (verify : String → String → String → Bool),
      (missingEnvVars env ≠ [] →
        validateRequest env req now kvGet putThrows verify =
          (some ⟨500, [], Body.plain "Missing required environment variables"⟩, []))
      ∧ (missingEnvVars env = [] →
          checkRateLimit now (kvGet (ratelimitKey (clientIPOf req))) putThrows = true →
          validateRequest env req now kvGet putThrows verify =
            (some ⟨429, [("Retry-After", "3600")], Body.plain "Rate limit exceeded"⟩,
              [Gate.rateLimiter (clientIPOf req)]))
      ∧ (missingEnvVars env = [] →
          checkRateLimit now (kvGet (ratelimitKey (clientIPOf req))) putThrows = false →
          signatureOf req = "" →
          validateRequest env req now kvGet putThrows verify =
            (some ⟨401, [], Body.plain "No signature"⟩, [Gate.rateLimiter (clientIPOf req)]))
      ∧ (missingEnvVars env = [] →
          checkRateLimit now (kvGet (ratelimitKey (clientIPOf req))) putThrows = false →
          signatureOf req ≠ "" →
          verify env.GITHUB_WEBHOOK_SECRET req.rawBody (signatureOf req) = false →
          validateRequest env req now kvGet putThrows verify =
            (some ⟨401, [], Body.plain "Invalid signature"⟩,
              [Gate.rateLimiter (clientIPOf req),
                Gate.verifier env.GITHUB_WEBHOOK_SECRET req.rawBody (signatureOf req)]))
      ∧ (missingEnvVars env = [] →
          checkRateLimit now (kvGet (ratelimitKey (clientIPOf req))) putThrows = false →
          signatureOf req ≠ "" →
          verify env.GITHUB_WEBHOOK_SECRET req.rawBody (signatureOf req) = true →
          validateRequest env req now kvGet putThrows verify =
            (none,
              [Gate.rateLimiter (clientIPOf req),
                Gate.verifier env.GITHUB_WEBHOOK_SECRET req.rawBody (signatureOf req)])) := by
  intro env req now kvGet putThrows verify
  have hts : toString WINDOW_SIZE = "3600" := rfl
  refine ⟨?_, ?_, ?_, ?_, ?_⟩
  · intro hne
    have hpos : 0 < (missingEnvVars env).length := List.length_pos.mpr hne
    simp [validateRequest, hpos]
  · intro hz hblock
    simp [validateRequest, hz, hblock, hts]
  · intro hz hok hsig
    simp [validateRequest, hz, hok, hsig]
  · intro hz hok hsig hver
    simp [validateRequest, hz, hok, hsig, hver]
  · intro hz hok hsig hver
    simp [validateRequest, hz, hok, hsig, hver]

/-- C4 witness: a configuration with an empty `GITHUB_TOKEN` yields the 500
response with no gate invoked, and a request whose signature the verifier
rejects yields a 401 after both the rate limiter and the verifier ran. -/
theorem claim4_witness :
    validateRequest ⟨"", "key", "brave", "secret"⟩ ⟨none, none, ""⟩ 0
        (fun _ => KVGet.value none) false (fun _ _ _ => true) =
      (some ⟨500, [], Body.plain "Missing required environment variables"⟩, [])
    ∧ validateRequest env0 ⟨none, some "sig", "payload"⟩ 0
        (fun _ => KVGet.value none) false (fun _ _ _ => false) =
      (some ⟨401, [], Body.plain "Invalid signature"⟩,
        [Gate.rateLimiter "unknown", Gate.verifier "secret" "payload" "sig"]) := by
  refine ⟨?_, ?_⟩
  · exact (claim4_validator_gate_order ⟨"", "key", "brave", "secret"⟩ ⟨none, none, ""⟩ 0
      (fun _ => KVGet.value none) false (fun _ _ _ => true)).1 (by decide)
  · exact (claim4_validator_gate_order env0 ⟨none, some "sig", "payload"⟩ 0
      (fun _ => KVGet.value none) false (fun _ _ _ => false)).2.2.2.1
      (by decide) (by decide) (by decide) (by decide)

/-- C5: the rate limiter fails open — a throwing `kv.get`, a stored `null`, and
a stored non-array value all behave like an empty timestamp sequence and allow
the request; the outcome of `kv.put` never influences the decision. -/
theorem claim5_rate_limiter_fails_open :
    ∀ (now : Int) (g : KVGet) (putThrows putThrows' : Bool),
      checkRateLimit now KVGet.throws putThrows =
          checkRateLimit now (KVGet.value (some (KVJson.arr []))) putThrows
      ∧ checkRateLimit now (KVGet.value none) putThrows =
          checkRateLimit now (KVGet.value (some (KVJson.arr []))) putThrows
      ∧ checkRateLimit now (KVGet.value (some KVJson.nonArr)) putThrows =
          checkRateLimit now (KVGet.value (some (KVJson.arr []))) putThrows
      ∧ checkRateLimit now g putThrows = checkRateLimit now g putThrows'
      ∧ checkRateLimit now KVGet.throws putThrows = false
      ∧ checkRateLimit now (KVGet.value none) putThrows = false
      ∧ checkRateLimit now (KVGet.value (some KVJson.nonArr)) putThrows = false := by
  intro now g putThrows putThrows'
  refine ⟨rfl, rfl, rfl, rfl, ?_, ?_, ?_⟩ <;> simp [checkRateLimit, MAX_REQUESTS]

/-- The extraction never yields more than 3 claims (`slice(0, 3)`). -/
theorem extractClaims_length_le (content : String) : (extractClaims content).length ≤ 3 := by
  unfold extractClaims
  simp [List.length_take]

/-- The synthesis loop never grows the accumulator past 5 results. -/
theorem processLoop_length_le :
    ∀ (ordering : List MixedType) (webs : List BraveWebItem) (news : List BraveNewsItem)
      (faqs : List BraveFaqItem) (acc : List BraveSearchResult),
      acc.length ≤ 5 → (processLoop ordering webs news faqs acc).length ≤ 5 := by
  intro ordering
  induction ordering with
  | nil => intro webs news faqs acc h; exact h
  | cons item rest ih =>
    intro webs news faqs acc h
    by_cases h5 : acc.length ≥ 5
    · cases item <;> simp only [processLoop, if_pos h5] <;> exact h
    · have hacc : ∀ x : BraveSearchResult, (acc ++ [x]).length ≤ 5 := by
        intro x; simp; omega
      cases item with
      | web =>
        cases webs with
        | nil => simp only [processLoop, if_neg h5]; exact ih _ _ _ _ h
        | cons w ws => simp only [processLoop, if_neg h5]; exact ih _ _ _ _ (hacc _)
      | news =>
        cases news with
        | nil => simp only [processLoop, if_neg h5]; exact ih _ _ _ _ h
        | cons n ns =>
          simp only [processLoop, if_neg h5]
          by_cases hd : n.description.length ≥ 5
          · rw [if_pos hd]; exact ih _ _ _ _ (hacc _)
          · rw [if_neg hd]; exact ih _ _ _ _ h
      | faq =>
        cases faqs with
        | nil => simp only [processLoop, if_neg h5]; exact ih _ _ _ _ h
        | cons f fs => simp only [processLoop, if_neg h5]; exact ih _ _ _ _ (hacc _)

/-- At most 5 results survive `processSearchResults`. -/
theorem processResults_length_le (resp : BraveAPIResponse) :
    (processResults resp).length ≤ 5 := by
  unfold processResults
  exact processLoop_length_le _ _ _ _ _ (by simp)

/-- Every value in a resolved `promiseAll` comes from a resolved element. -/
theorem promiseAll_ok_mem {ε α : Type} (l : List (Except ε α)) (out : List α)
    (h : promiseAll l = Except.ok out) : ∀ b ∈ out, ∃ x ∈ l, x = Except.ok b := by
  induction l generalizing out with
  | nil =>
    intro b hb
    have hout : ([] : List α) = out := Except.ok.inj h
    rw [← hout] at hb
    simp at hb
  | cons x xs ih =>
    intro b hb
    cases x with
    | error e =>
      rw [show promiseAll (Except.error e :: xs) = Except.error e from rfl] at h
      exact (Except.noConfusion h)
    | ok v =>
      cases hp : promiseAll xs with
      | error e =>
        rw [show promiseAll (Except.ok v :: xs) =
            (match promiseAll xs with
              | .error e => .error e
              | .ok vs => .ok (v :: vs)) from rfl, hp] at h
        exact (Except.noConfusion h)
      | ok vs =>
        rw [show promiseAll (Except.ok v :: xs) =
            (match promiseAll xs with
              | .error e => .error e
              | .ok vs => .ok (v :: vs)) from rfl, hp] at h
        have hout : v :: vs = out := Except.ok.inj h
        rw [← hout] at hb
        rcases List.mem_cons.mp hb with hbv | hbvs
        · subst hbv
          exact ⟨Except.ok b, List.mem_cons_self _ _, rfl⟩
        · obtain ⟨x, hx, hxe⟩ := ih vs hp b hbvs
          exact ⟨x, List.mem_cons_of_mem _ hx, hxe⟩

/-- A rejected element makes the whole `promiseAll` reject. -/
theorem promiseAll_error_of_mem {ε α : Type} (l : List (Except ε α)) (e : ε)
    (hx : Except.error e ∈ l) : ∃ e2, promiseAll l = Except.error e2 := by
  induction l with
  | nil => simp at hx
  | cons x xs ih =>
    rcases List.mem_cons.mp hx with h | h
    · refine ⟨e, ?_⟩
      rw [← h]
      rfl
    · cases x with
      | error e3 => exact ⟨e3, rfl⟩
      | ok v =>
        obtain ⟨e2, he2⟩ := ih h
        refine ⟨e2, ?_⟩
        rw [show promiseAll (Except.ok v :: xs) =
            (match promiseAll xs with
              | .error e => .error e
              | .ok vs => .ok (v :: vs)) from rfl, he2]

/-- Inversion for a resolved per-claim resolution: it comes from a resolved
search whose processed results give the references. -/
theorem factCheckOne_ok_inv (search : String → Except String BraveAPIResponse)
    (c : String) (r : SearchResult) (h : factCheckOne search c = Except.ok r) :
    ∃ resp, search c = Except.ok resp ∧ r.claim = c ∧
      r.references =
        (processResults resp).map (fun result => (⟨result.title, result.url⟩ : Reference)) := by
  unfold factCheckOne processSearchResults at h
  cases hs : search c with
  | error e =>
    rw [hs] at h
    simp only [Except.map] at h
    exact (Except.noConfusion h)
  | ok resp =>
    rw [hs] at h
    simp only [Except.map] at h
    have h2 := Except.ok.inj h
    rw [← h2]
    exact ⟨resp, rfl, rfl, rfl⟩

/-- C6 (amended): `factCheck`'s claim extraction splits the text on periods,
trims each piece, keeps a piece iff its trimmed length is at least 20 AND
splitting it on single space characters yields at least 5 pieces (consecutive
spaces contribute empty pieces that are counted, so this is not a
whitespace-delimited token count), and takes at most the first 3 qualifying
pieces in original order; it is deterministic, and the claim's concrete input
yields exactly its one stated claim. -/
theorem claim6_extraction_rule :
    ∀ content : String,
      extractClaims content =
        (((jsSplit '.' content).map jsTrim).filter
          (fun s => decide (s.length ≥ 20) && decide ((jsSplit ' ' s).length ≥ 5))).take 3
      ∧ (extractClaims content).length ≤ 3
      ∧ List.Sublist (extractClaims content) ((jsSplit '.' content).map jsTrim)
      ∧ (∀ s ∈ extractClaims content, s.length ≥ 20 ∧ (jsSplit ' ' s).length ≥ 5)
      ∧ extractClaims
          "Short. This is a longer and more substantial claim that should be included." =
        ["This is a longer and more substantial claim that should be included"] := by
  intro content
  refine ⟨rfl, extractClaims_length_le content, ?_, ?_, by decide⟩
  · exact (List.take_sublist 3 _).trans (List.filter_sublist _)
  · intro s hs
    have hmem : s ∈ ((jsSplit '.' content).map jsTrim).filter isSubstantial :=
      (List.take_sublist 3 _).subset hs
    have hsub := (List.mem_filter.mp hmem).2
    unfold isSubstantial at hsub
    simp at hsub
    exact hsub

/-- C6 witness: the claim extracted from the concrete input satisfies the
(corrected) filter. -/
theorem claim6_witness :
    claimW.length ≥ 20 ∧ (jsSplit ' ' claimW).length ≥ 5 :=
  (claim6_extraction_rule
      "Short. This is a longer and more substantial claim that should be included.").2.2.2.1
    claimW (by decide)

/-- C6 counterexample: on an input whose only period-piece is two tokens
separated by 20 spaces, the code keeps the piece (splitting on single spaces
yields 21 pieces, and 21 ≥ 5) although it has only 2 whitespace-delimited
tokens, so the rule stated by the claim (`claimExtract`) would drop it: the
claimed iff fails on this input. -/
theorem claim6_counterexample :
    extractClaims "a                    b." = ["a                    b"]
    ∧ claimExtract "a                    b." = []
    ∧ extractClaims "a                    b." ≠ claimExtract "a                    b." :=
  ⟨by decide, by decide, by decide⟩

/-- C7: whenever `factCheck` resolves, every returned fact-check result has a
non-empty reference list, and a claim whose search resolution yielded zero
surviving results is absent from the returned list entirely. -/
theorem claim7_no_empty_references :
    ∀ (search : String → Except String BraveAPIResponse) (content : String)
      (res : List SearchResult),
      factCheck search content = Except.ok res →
      (∀ r ∈ res, r.references ≠ [])
      ∧ (∀ c ∈ extractClaims content, ∀ resp, search c = Except.ok resp →
          processResults resp = [] → c ∉ res.map SearchResult.claim) := by
  intro search content res h
  unfold factCheck at h
  cases hp : promiseAll ((extractClaims content).map (factCheckOne search)) with
  | error e =>
    rw [hp] at h
    exact (Except.noConfusion h)
  | ok results =>
    rw [hp] at h
    have hres : res = results.filter (fun result => decide (result.references.length > 0)) :=
      (Except.ok.inj h).symm
    subst hres
    constructor
    · intro r hr hnil
      have h2 := (List.mem_filter.mp hr).2
      rw [hnil] at h2
      simp at h2
    · intro c hc resp hresp hempty hmem
      obtain ⟨r, hrmem, hrc⟩ := List.mem_map.mp hmem
      have hfil := List.mem_filter.mp hrmem
      obtain ⟨x, hxmem, hxok⟩ := promiseAll_ok_mem _ _ hp r hfil.1
      obtain ⟨c2, hc2mem, hfc2⟩ := List.mem_map.mp hxmem
      obtain ⟨resp2, hs2, hclaim, hrefs⟩ := factCheckOne_ok_inv search c2 r (hfc2.trans hxok)
      rw [hclaim] at hrc
      subst hrc
      rw [hresp] at hs2
      have hrespeq : resp = resp2 := Except.ok.inj hs2
      have h2 := hfil.2
      rw [hrefs, ← hrespeq, hempty] at h2
      simp at h2

/-- C7 witness: a concrete resolved run returning one result whose reference
list is non-empty. -/
theorem claim7_witness : resultW.references ≠ [] :=
  (claim7_no_empty_references searchW contentW [resultW] rfl).1 resultW
    (List.mem_singleton.mpr rfl)

/-- C8: if some extracted claim's search query rejects, the whole `factCheck`
call rejects — no partial result list is returned. -/
theorem claim8_batch_failure :
    ∀ (search : String → Except String BraveAPIResponse) (content c e : String),
      c ∈ extractClaims content → search c = Except.error e →
      isErr (factCheck search content) = true := by
  intro search content c e hc hse
  have hfc : factCheckOne search c = Except.error e := by
    unfold factCheckOne processSearchResults
    rw [hse]
    rfl
  have hmem : Except.error e ∈ (extractClaims content).map (factCheckOne search) := by
    rw [← hfc]
    exact List.mem_map_of_mem _ hc
  obtain ⟨e2, he2⟩ := promiseAll_error_of_mem _ e hmem
  unfold factCheck
  rw [he2]
  rfl

/-- C8 witness: a search backend rejecting every query makes `factCheck`
reject on a text with one extracted claim. -/
theorem claim8_witness : isErr (factCheck searchErrW contentW) = true :=
  claim8_batch_failure searchErrW contentW claimW
    "Brave search failed: Internal Server Error" (by decide) rfl

/-- C9: at most 3 claims are ever extracted regardless of input length, at
most 5 results survive the per-claim search synthesis, and every result of a
resolved `factCheck` carries at most 5 references. -/
theorem claim9_output_bounds :
    ∀ (content : String) (search : String → Except String BraveAPIResponse)
      (resp : BraveAPIResponse) (res : List SearchResult),
      (extractClaims content).length ≤ 3
      ∧ (processResults resp).length ≤ 5
      ∧ (factCheck search content = Except.ok res →
          ∀ r ∈ res, r.references.length ≤ 5) := by
  intro content search resp res
  refine ⟨extractClaims_length_le content, processResults_length_le resp, ?_⟩
  intro h r hr
  unfold factCheck at h
  cases hp : promiseAll ((extractClaims content).map (factCheckOne search)) with
  | error e =>
    rw [hp] at h
    exact (Except.noConfusion h)
  | ok results =>
    rw [hp] at h
    have hres : res = results.filter (fun result => decide (result.references.length > 0)) :=
      (Except.ok.inj h).symm
    subst hres
    have hfil := List.mem_filter.mp hr
    obtain ⟨x, hxmem, hxok⟩ := promiseAll_ok_mem _ _ hp r hfil.1
    obtain ⟨c2, hc2mem, hfc2⟩ := List.mem_map.mp hxmem
    obtain ⟨resp2, hs2, hclaim, hrefs⟩ := factCheckOne_ok_inv search c2 r (hfc2.trans hxok)
    rw [hrefs, List.length_map]
    exact processResults_length_le resp2

/-- C9 witness: the concrete resolved run's single result has at most 5
references. -/
theorem claim9_witness : resultW.references.length ≤ 5 :=
  (claim9_output_bounds contentW searchW respW [resultW]).2.2 rfl resultW
    (List.mem_singleton.mpr rfl)

/-- C2 (amended): a post-validation pipeline failure with reason `r` posts an
error comment containing `r` (namely `errCommentPre ++ r ++ errCommentSuf`)
and answers 500 with body `{error: r}` — provided the error-comment post
succeeds; when that post itself rejects, the worker still answers 500, but
through the outer catch with the generic body `{error: "Internal server
error"}` and without the error comment; a content fetch rejecting with
"Timeout" reaches exactly this error path. -/
theorem claim2_failed_state_contract :
    ∀ (o : Oracles) (r : String),
      (o.postErrorOk = true →
        errorPath o (ackComments o) r =
          ⟨⟨500, [("Content-Type", "application/json")], Body.jsonError r⟩,
            ackComments o ++ [errCommentPre ++ (r ++ errCommentSuf)]⟩)
      ∧ (o.postErrorOk = false →
          errorPath o (ackComments o) r =
            ⟨⟨500, [("Content-Type", "application/json")],
                Body.jsonError "Internal server error"⟩, ackComments o⟩)
      ∧ (o.getPRContent = Except.error r →
          runArticleCheck o = errorPath o (ackComments o) r) := by
  intro o r
  refine ⟨?_, ?_, ?_⟩
  · intro hpe
    simp [errorPath, hpe, errorCommentBody]
  · intro hpe
    simp [errorPath, hpe]
  · intro hg
    simp [runArticleCheck, hg]

/-- C2 witness: a "Timeout" content-fetch failure with a succeeding
error-comment post produces the 500 `{error: "Timeout"}` response and the
posted comment containing "Timeout". -/
theorem claim2_witness :
    errorPath oC2ok (ackComments oC2ok) "Timeout" =
      ⟨⟨500, [("Content-Type", "application/json")], Body.jsonError "Timeout"⟩,
        ackComments oC2ok ++ [errCommentPre ++ ("Timeout" ++ errCommentSuf)]⟩
    ∧ runArticleCheck oC2ok = errorPath oC2ok (ackComments oC2ok) "Timeout" :=
  ⟨(claim2_failed_state_contract oC2ok "Timeout").1 rfl,
    (claim2_failed_state_contract oC2ok "Timeout").2.2 rfl⟩

/-- C2 counterexample: when the content fetch rejects with "Timeout" and the
error-comment post itself fails, the worker answers 500 with the generic body
`{error: "Internal server error"}` — not `{error: "Timeout"}` as claimed —
and posts no error comment. -/
theorem claim2_counterexample :
    (runArticleCheck oC2).resp.status = 500
    ∧ (runArticleCheck oC2).resp.body = Body.jsonError "Internal server error"
    ∧ (runArticleCheck oC2).resp.body ≠ Body.jsonError "Timeout"
    ∧ (runArticleCheck oC2).comments = [] :=
  ⟨rfl, rfl, by decide, rfl⟩

/-- C3 (amended): for a validated triggering event whose content fetch
succeeds, a rejection of the analysis backend call propagates to the error
path (500 plus posted error comment) exactly like a fact-check engine
rejection — rejections are not tolerated asymmetrically; the visible
placeholder "*Error: Could not generate analysis*" is substituted only when
the analysis call resolves with the empty (falsy) string, in which case the
pipeline composes a report containing the placeholder verbatim, publishes it
and answers 200. -/
theorem claim3_analysis_failure_propagates :
    ∀ (o : Oracles) (content e : String) (fc : List SearchResult),
      (o.getPRContent = Except.ok content → o.analyzeArticle content = Except.error e →
        runArticleCheck o = errorPath o (ackComments o) e)
      ∧ (∀ a, o.getPRContent = Except.ok content → o.analyzeArticle content = Except.ok a →
          factCheck o.search content = Except.error e →
          runArticleCheck o = errorPath o (ackComments o) e)
      ∧ (o.getPRContent = Except.ok content → o.analyzeArticle content = Except.ok "" →
          factCheck o.search content = Except.ok fc → o.postFinal = Except.ok () →
          runArticleCheck o =
            ⟨⟨200, [("Content-Type", "application/json")],
                Body.plain "Article check completed"⟩,
              ackComments o ++ [composeComment "" fc o.procMs]⟩)
      ∧ (∀ ms, composeComment "" fc ms =
          "## Article Check Results\n\n### AI Analysis\n" ++
            (placeholderAnalysis ++
              ("\n\n### Fact Checking Results\n" ++
                (fcSection fc ++
                  ("\n\n---\n*This check was performed automatically by the Article Checker bot.*\n*Processing time: " ++
                    (toString ms ++ "ms*")))))) := by
  intro o content e fc
  refine ⟨?_, ?_, ?_, ?_⟩
  · intro hg ha
    simp [runArticleCheck, hg, ha]
  · intro a hg ha hf
    simp [runArticleCheck, hg, ha, hf]
  · intro hg ha hf hp
    simp [runArticleCheck, hg, ha, hf, hp]
  · intro ms
    simp [composeComment, analysisSection]

/-- C3 witness: the concrete run whose analysis call rejects lands on the
error path with the analysis error as the reason. -/
theorem claim3_witness :
    runArticleCheck oC3 = errorPath oC3 (ackComments oC3) "Claude API error: Bad Request" :=
  (claim3_analysis_failure_propagates oC3 "article content"
      "Claude API error: Bad Request" []).1 rfl rfl

/-- C3 counterexample: with a successful content fetch and an analysis backend
call that rejects, the worker answers 500 and posts the error comment — it
does not compose a placeholder report and return 200 as claimed. -/
theorem claim3_counterexample :
    (runArticleCheck oC3).resp.status = 500
    ∧ (runArticleCheck oC3).resp.status ≠ 200
    ∧ (runArticleCheck oC3).comments =
        [ackBody, errCommentPre ++ ("Claude API error: Bad Request" ++ errCommentSuf)] :=
  ⟨rfl, by decide, rfl⟩

/-- C10: a validated triggering event with a non-empty PR URL that does not
match `repos/{owner}/{repo}/pulls/{number}` makes `extractPRDetails` throw
before the inner try is entered, so the worker answers 500 with
`{error: "Internal server error"}` and posts no comment at all; the preceding
400 "Invalid PR URL" branch is not taken for such URLs because it requires a
falsy (empty) URL string. -/
theorem claim10_pr_url_edge :
    ∀ (prUrl : String) (o : Oracles),
      prUrl ≠ "" → isErr (extractPRDetails prUrl) = true →
      handleTrigger prUrl o =
        ⟨⟨500, [("Content-Type", "application/json")],
            Body.jsonError "Internal server error"⟩, []⟩
      ∧ (handleTrigger prUrl o).resp.status ≠ 400 := by
  intro prUrl o hne herr
  cases hx : extractPRDetails prUrl with
  | ok d =>
    rw [hx] at herr
    exact absurd herr (by simp [isErr])
  | error e =>
    have hh : handleTrigger prUrl o =
        ⟨⟨500, [("Content-Type", "application/json")],
            Body.jsonError "Internal server error"⟩, []⟩ := by
      simp [handleTrigger, hne, hx]
    refine ⟨hh, ?_⟩
    rw [hh]
    decide

/-- C10 witness: the html-style URL `.../pull/123` (singular "pull") is
non-empty yet unmatched, so the run answers the generic 500 and posts
nothing. -/
theorem claim10_witness :
    handleTrigger "https://github.com/owner/repo/pull/123" oC10 =
      ⟨⟨500, [("Content-Type", "application/json")],
          Body.jsonError "Internal server error"⟩, []⟩
    ∧ (handleTrigger "https://github.com/owner/repo/pull/123" oC10).resp.status ≠ 400 :=
  claim10_pr_url_edge "https://github.com/owner/repo/pull/123" oC10 (by decide) (by decide)

end ArticleChecker
